import Mathlib

/-!
Shallow embedding of the SAM.gov opportunity Classification & Fit-Scoring
engine (`src/models.py`, `src/ai_classifier.py`, `src/ai_scoring.py`).

Conventions of the embedding:
* Python `float` values arising in the scoring formulas are modelled as
  exact rationals (`ℚ`); the weight literals `0.30`, `0.20`, `0.10` become
  `30/100`, `20/100`, `10/100`.
* Python's `round(x, 2)` (round-half-to-even) is modelled exactly by
  `round2` below.
* The generative backend (the OpenAI chat-completion call plus JSON
  parsing) is external I/O; each engine function that consults it is
  parameterised by the parsed outcome of that call: `none` models any
  raised failure (transport error, malformed JSON — both propagate as
  exceptions out of `_ai_classify` / `_ai_score`), while `some raw`
  models a successfully parsed JSON object whose individual fields may
  still be absent (`Option`). This mirrors exactly which control path the
  Python code takes in each case.
* Python's substring test `needle in haystack` is `strIn needle haystack`;
  `str.lower()` / `str.upper()` are `String.toLower` / `String.toUpper`;
  `str.split()` (whitespace split discarding empties) is `pySplit`.
-/

namespace SamGov

/-- Python `needle in haystack` at the start: `haystack.startswith(needle)`
(helper for `strIn`). -/
def charsStartWith : List Char → List Char → Bool
  | _, [] => true
  | [], _ :: _ => false
  | c :: cs, d :: ds => c == d && charsStartWith cs ds

/-- Substring occurrence on character lists: does `needle` occur
contiguously inside `haystack`? -/
def charsContain (haystack needle : List Char) : Bool :=
  match haystack with
  | [] => charsStartWith [] needle
  | _ :: rest => charsStartWith haystack needle || charsContain rest needle

/-- Python's `needle in haystack` on strings. -/
def strIn (needle haystack : String) : Bool :=
  charsContain haystack.toList needle.toList

/-- Python's `str.split()` with no argument: split on whitespace runs,
discarding empty pieces. -/
def pySplit (s : String) : List String :=
  (s.split Char.isWhitespace).filter (fun piece => piece ≠ "")

/-- `OpportunityDomain` enum (`src/models.py`). -/
inductive OpportunityDomain where
  | AI
  | DATA
  | CLOUD
  | CYBER
  | IT_OPS
  | SOFTWARE
  | MODERNIZATION
  | OTHER
  deriving DecidableEq, Repr

/-- The string value of each `OpportunityDomain` member (`src/models.py`,
the enum is a `str` enum and `use_enum_values = True`). -/
def OpportunityDomain.value : OpportunityDomain → String
  | .AI => "AI"
  | .DATA => "Data"
  | .CLOUD => "Cloud"
  | .CYBER => "Cybersecurity"
  | .IT_OPS => "IT Operations"
  | .SOFTWARE => "Software Engineering"
  | .MODERNIZATION => "Modernization"
  | .OTHER => "Other"

/-- `Complexity` enum (`src/models.py`). -/
inductive Complexity where
  | LOW
  | MEDIUM
  | HIGH
  deriving DecidableEq, Repr

/-- `ProjectType` enum (`src/models.py`). -/
inductive ProjectType where
  | MODERNIZATION
  | OPERATIONS
  | GREENFIELD
  | LEGACY
  deriving DecidableEq, Repr

/-- `RecommendedAction` enum (`src/models.py`). -/
inductive RecommendedAction where
  | BID
  | TEAM_SUB
  | IGNORE
  deriving DecidableEq, Repr

/-- `Opportunity` model (`src/models.py`), restricted to the fields the
classifier and scorer read or write.  `secondary_domains` is a list of
`Option OpportunityDomain` because pydantic does not re-validate plain
attribute assignment: `classify_opportunity` can store `None` entries
produced by `_normalize_domain`. -/
structure Opportunity where
  notice_id : String
  title : String
  description : String
  agency : String
  naics : List String
  primary_domain : Option OpportunityDomain := none
  secondary_domains : List (Option OpportunityDomain) := []
  complexity : Option Complexity := none
  project_type : Option ProjectType := none
  is_legacy : Option Bool := none
  deriving DecidableEq, Repr

/-- `CapabilityProfile` model (`src/models.py`), restricted to the fields
the scorer reads. -/
structure CapabilityProfile where
  company_name : String
  core_domains : List String := []
  technical_skills : List String := []
  naics : List String := []
  preferred_agencies : List String := []
  certifications : List String := []
  role_preference : String := "Prime"
  deriving DecidableEq, Repr

/-- `FitScoreBreakdown` model (`src/models.py`): six factors, each a
float in `[0,100]`. -/
structure FitScoreBreakdown where
  domain_match : ℚ
  naics_match : ℚ
  technical_skill_match : ℚ
  agency_alignment : ℚ
  contract_type_fit : ℚ
  strategic_value : ℚ
  deriving DecidableEq, Repr

/-- `OpportunityScore` model (`src/models.py`). -/
structure OpportunityScore where
  opportunity : Opportunity
  capability_profile : CapabilityProfile
  fit_score : ℚ
  breakdown : FitScoreBreakdown
  explanation : String
  risk_factors : List String
  recommended_action : RecommendedAction
  reasoning : String
  deriving DecidableEq, Repr

/-- Round a rational to the nearest integer, ties to even — the rounding
Python's builtin `round` uses. -/
def roundHalfEven (q : ℚ) : ℤ :=
  if Int.fract q = 1/2 then (if ⌊q⌋ % 2 = 0 then ⌊q⌋ else ⌊q⌋ + 1)
  else round q

/-- Python `round(x, 2)`. -/
def round2 (q : ℚ) : ℚ := (roundHalfEven (q * 100) : ℚ) / 100

/-- `s.lower()` as a character list (the engines only ever use lowered or
uppered text for substring tests). -/
def lowerChars (s : String) : List Char := s.data.map Char.toLower

/-- `s.upper()` as a character list. -/
def upperChars (s : String) : List Char := s.data.map Char.toUpper

/-- Python `needle in haystack` where the haystack is an already
lowered/uppered character list. -/
def pyIn (needle : String) (haystack : List Char) : Bool :=
  charsContain haystack needle.data

/-- Helper for `pyWordCount`: the flag records whether the scan is
currently inside a word. -/
def wordCountAux : Bool → List Char → Nat
  | _, [] => 0
  | inWord, c :: rest =>
    if c.isWhitespace then wordCountAux false rest
    else (if inWord then 0 else 1) + wordCountAux true rest

/-- Python `len(s.split())`: number of maximal whitespace-free runs. -/
def pyWordCount (s : String) : Nat := wordCountAux false s.data

namespace AIClassifier

/-- Exclusion list of clearly non-IT terms
(`AIClassifier._rule_based_classify`, `src/ai_classifier.py` lines 220-226). -/
def non_it_terms : List String :=
  ["grounds maintenance", "custodial", "janitorial", "cleaning", "waste collection",
   "valve", "cable assembly", "bracket", "cylinder", "window", "disc brake",
   "seal", "hinge", "elbow pipe", "cap shaft", "link assembly", "support structural",
   "hose exhaust", "fire pump", "water purification", "fume hood", "cabinet",
   "countertop", "barracks", "pier", "trailer", "apparel", "ammunition"]

/-- The ranked alias table `domain_mapping` of
`AIClassifier._normalize_domain` (`src/ai_classifier.py` lines 148-174), in
the dict's insertion order (the iteration order of a Python dict). -/
def domain_mapping : List (String × OpportunityDomain) :=
  [("AI", .AI),
   ("AI/ML", .AI),
   ("MACHINE LEARNING", .AI),
   ("ML", .AI),
   ("DATA", .DATA),
   ("DATA ANALYTICS", .DATA),
   ("DATA ANALYTICS/ENGINEERING", .DATA),
   ("DATA ENGINEERING", .DATA),
   ("CLOUD", .CLOUD),
   ("CLOUD ARCHITECTURE", .CLOUD),
   ("CLOUD ARCHITECTURE & MIGRATION", .CLOUD),
   ("CLOUD MIGRATION", .CLOUD),
   ("CYBERSECURITY", .CYBER),
   ("CYBERSECURITY/ZERO TRUST", .CYBER),
   ("ZERO TRUST", .CYBER),
   ("CYBER", .CYBER),
   ("DEVSECOPS", .SOFTWARE),
   ("DEVSECOPS/AUTOMATION", .SOFTWARE),
   ("DEVOPS", .SOFTWARE),
   ("AUTOMATION", .SOFTWARE),
   ("IT OPERATIONS", .IT_OPS),
   ("IT OPS", .IT_OPS),
   ("SOFTWARE", .SOFTWARE),
   ("SOFTWARE ENGINEERING", .SOFTWARE),
   ("MODERNIZATION", .MODERNIZATION)]

/-- `AIClassifier._normalize_domain`: `none`/empty input is falsy and
returns `None`; otherwise the first alias that is a substring of the
uppercased input wins; no match returns `Other`. -/
def normalize_domain (domain : Option String) : Option OpportunityDomain :=
  match domain with
  | none => none
  | some s =>
    if s = "" then none
    else
      let domain_upper := upperChars s
      match domain_mapping.find? (fun kv => pyIn kv.1 domain_upper) with
      | some kv => some kv.2
      | none => some OpportunityDomain.OTHER

/-- `AIClassifier._normalize_complexity`. -/
def normalize_complexity (complexity : Option String) : Option Complexity :=
  match complexity with
  | none => some Complexity.MEDIUM
  | some s =>
    if s = "" then some Complexity.MEDIUM
    else
      let complexity_upper := upperChars s
      if pyIn "HIGH" complexity_upper then some Complexity.HIGH
      else if pyIn "LOW" complexity_upper then some Complexity.LOW
      else some Complexity.MEDIUM

/-- `AIClassifier._normalize_project_type`. -/
def normalize_project_type (project_type : Option String) : Option ProjectType :=
  match project_type with
  | none => none
  | some s =>
    if s = "" then none
    else
      let pt_upper := upperChars s
      if pyIn "MODERNIZATION" pt_upper then some ProjectType.MODERNIZATION
      else if pyIn "OPERATIONS" pt_upper then some ProjectType.OPERATIONS
      else if pyIn "GREENFIELD" pt_upper then some ProjectType.GREENFIELD
      else if pyIn "LEGACY" pt_upper then some ProjectType.LEGACY
      else none

/-- The classification JSON object as parsed by `_ai_classify` before
normalization.  A field that is `none`/`[]`/`false` models the
corresponding key being absent from the JSON object (the code reads each
with `.get` and a default).  A response that fails to parse at all, or a
transport error, raises out of `_ai_classify` and is modelled as the
absence of a `RawClassification` (see `classify_opportunity`). -/
structure RawClassification where
  primary_domain : Option String := none
  secondary_domains : List String := []
  complexity : Option String := none
  project_type : Option String := none
  is_legacy : Bool := false
  deriving DecidableEq, Repr

/-- The normalized dict returned by `_ai_classify`
(`src/ai_classifier.py` lines 123-132). -/
structure NormalizedClassification where
  primary_domain : Option OpportunityDomain
  secondary_domains : List (Option OpportunityDomain)
  complexity : Option Complexity
  project_type : Option ProjectType
  is_legacy : Bool
  deriving DecidableEq, Repr

/-- The pure tail of `AIClassifier._ai_classify`: normalization of a
successfully parsed classification JSON object. -/
def ai_classify (raw : RawClassification) : NormalizedClassification where
  primary_domain := normalize_domain raw.primary_domain
  secondary_domains := raw.secondary_domains.map (fun d => normalize_domain (some d))
  complexity := normalize_complexity raw.complexity
  project_type := normalize_project_type raw.project_type
  is_legacy := raw.is_legacy

/-- `AIClassifier._rule_based_classify` (`src/ai_classifier.py`
lines 212-279). -/
def rule_based_classify (opp : Opportunity) : Opportunity :=
  let text := lowerChars (opp.title ++ " " ++ opp.description)
  if non_it_terms.any (fun term => pyIn term text) then
    { opp with primary_domain := some OpportunityDomain.OTHER,
               complexity := some Complexity.LOW }
  else
    let domains : List OpportunityDomain :=
      (if ["artificial intelligence", "machine learning", "ml model", "llm", "rag",
           "nlp", "neural network", "deep learning"].any (fun kw => pyIn kw text)
       then [OpportunityDomain.AI] else []) ++
      (if ["data analytics", "data engineering", "data warehouse", "data lake",
           "business intelligence", "bi ", "etl", "data pipeline"].any (fun kw => pyIn kw text)
       then [OpportunityDomain.DATA] else []) ++
      (if ["cloud migration", "cloud architecture", "aws ", "azure ", "gcp ",
           "cloud platform", "cloud infrastructure"].any (fun kw => pyIn kw text)
       then [OpportunityDomain.CLOUD] else []) ++
      (if ["cybersecurity", "zero trust", "fedramp", "fisma", "security operations",
           "soc", "siem", "iam"].any (fun kw => pyIn kw text)
       then [OpportunityDomain.CYBER] else []) ++
      (if ["software development", "devops", "devsecops", "ci/cd", "kubernetes",
           "docker", "terraform", "automation"].any (fun kw => pyIn kw text)
       then [OpportunityDomain.SOFTWARE] else []) ++
      (if ["modernization", "legacy system", "mainframe migration", "system upgrade"].any
           (fun kw => pyIn kw text)
       then [OpportunityDomain.MODERNIZATION] else [])
    let withDomains :=
      match domains with
      | [] => { opp with primary_domain := some OpportunityDomain.OTHER }
      | d :: rest => { opp with primary_domain := some d,
                                secondary_domains := rest.map some }
    let word_count := pyWordCount opp.description
    let complexityVal :=
      if word_count > 1000 || pyIn "complex" text || pyIn "enterprise" text
      then Complexity.HIGH
      else if word_count < 200 then Complexity.LOW
      else Complexity.MEDIUM
    let withComplexity := { withDomains with complexity := some complexityVal }
    if pyIn "modernization" text || pyIn "migration" text || pyIn "legacy" text then
      { withComplexity with project_type := some ProjectType.MODERNIZATION,
                            is_legacy := some true }
    else if pyIn "operations" text || pyIn "support" text || pyIn "maintenance" text then
      { withComplexity with project_type := some ProjectType.OPERATIONS }
    else if pyIn "new" text || pyIn "development" text || pyIn "build" text then
      { withComplexity with project_type := some ProjectType.GREENFIELD }
    else withComplexity

/-- `AIClassifier.classify_opportunity` (`src/ai_classifier.py`
lines 38-67).  `hasClient` models `self.client` being configured;
`aiOutcome` is the parsed outcome of the generative call: `none` models an
exception raised inside `_ai_classify` (transport error or malformed
JSON), `some raw` a successfully parsed JSON object. -/
def classify_opportunity (hasClient : Bool) (aiOutcome : Option RawClassification)
    (opp : Opportunity) : Opportunity :=
  if !hasClient then rule_based_classify opp
  else
    match aiOutcome with
    | none => rule_based_classify opp
    | some raw =>
      let classification := ai_classify raw
      { opp with primary_domain := classification.primary_domain,
                 secondary_domains := classification.secondary_domains,
                 complexity := classification.complexity,
                 project_type := classification.project_type,
                 is_legacy := some classification.is_legacy }

/-- Recursion underlying `classify_batch`: the index `i` selects which
generative response (`oracle i`) the `i`-th sequential call observes. -/
def classify_batch_go (hasClient : Bool) (oracle : Nat → Option RawClassification)
    (i : Nat) : List Opportunity → List Opportunity
  | [] => []
  | opp :: rest =>
    classify_opportunity hasClient (oracle i) opp ::
      classify_batch_go hasClient oracle (i + 1) rest

/-- `AIClassifier.classify_batch` (`src/ai_classifier.py` lines 281-283):
`[self.classify_opportunity(opp) for opp in opportunities]` — every item
goes through `classify_opportunity`, with no index ceiling. -/
def classify_batch (hasClient : Bool) (oracle : Nat → Option RawClassification)
    (opps : List Opportunity) : List Opportunity :=
  classify_batch_go hasClient oracle 0 opps

end AIClassifier

namespace AIScoringEngine

/-- `AIScoringEngine.WEIGHTS` (`src/ai_scoring.py` lines 23-30); the
Python float literals `0.30`, `0.20`, `0.10` are modelled as exact
rationals. -/
def WEIGHTS_domain_match : ℚ := 30 / 100

/-- Weight of `naics_match` in `AIScoringEngine.WEIGHTS`. -/
def WEIGHTS_naics_match : ℚ := 20 / 100

/-- Weight of `technical_skill_match` in `AIScoringEngine.WEIGHTS`. -/
def WEIGHTS_technical_skill_match : ℚ := 20 / 100

/-- Weight of `agency_alignment` in `AIScoringEngine.WEIGHTS`. -/
def WEIGHTS_agency_alignment : ℚ := 10 / 100

/-- Weight of `contract_type_fit` in `AIScoringEngine.WEIGHTS`. -/
def WEIGHTS_contract_type_fit : ℚ := 10 / 100

/-- Weight of `strategic_value` in `AIScoringEngine.WEIGHTS`. -/
def WEIGHTS_strategic_value : ℚ := 10 / 100

/-- Lines 80-95 of `src/ai_scoring.py` (`score_opportunity`): combine a
breakdown into the raw weighted fit score and the recommended action. -/
def scoreCombine_ai (b : FitScoreBreakdown) : ℚ × RecommendedAction :=
  let fit_score :=
    b.domain_match * WEIGHTS_domain_match +
    b.naics_match * WEIGHTS_naics_match +
    b.technical_skill_match * WEIGHTS_technical_skill_match +
    b.agency_alignment * WEIGHTS_agency_alignment +
    b.contract_type_fit * WEIGHTS_contract_type_fit +
    b.strategic_value * WEIGHTS_strategic_value
  let recommended_action :=
    if fit_score ≥ 70 then RecommendedAction.BID
    else if fit_score ≥ 50 then RecommendedAction.TEAM_SUB
    else RecommendedAction.IGNORE
  (fit_score, recommended_action)

/-- Lines 316-330 of `src/ai_scoring.py` (`_rule_based_score`): combine a
breakdown into the raw weighted fit score and the recommended action. -/
def scoreCombine_rule (b : FitScoreBreakdown) : ℚ × RecommendedAction :=
  let fit_score :=
    b.domain_match * WEIGHTS_domain_match +
    b.naics_match * WEIGHTS_naics_match +
    b.technical_skill_match * WEIGHTS_technical_skill_match +
    b.agency_alignment * WEIGHTS_agency_alignment +
    b.contract_type_fit * WEIGHTS_contract_type_fit +
    b.strategic_value * WEIGHTS_strategic_value
  let recommended_action :=
    if fit_score ≥ 70 then RecommendedAction.BID
    else if fit_score ≥ 50 then RecommendedAction.TEAM_SUB
    else RecommendedAction.IGNORE
  (fit_score, recommended_action)

/-- `domain_keywords` table of `_rule_based_score`
(`src/ai_scoring.py` lines 249-255). -/
def domain_keywords : List (String × List String) :=
  [("ai", ["ai", "ml", "machine learning", "artificial intelligence"]),
   ("data", ["data", "analytics", "engineering", "warehouse", "bi"]),
   ("cloud", ["cloud", "migration", "architecture", "aws", "azure", "gcp"]),
   ("cyber", ["cyber", "security", "zero trust", "fedramp", "fisma"]),
   ("software", ["devops", "devsecops", "automation", "ci/cd", "software"])]

/-- The `domain_match` factor of `_rule_based_score`
(`src/ai_scoring.py` lines 244-272): the loop sets `80` on the first core
domain with a direct or keyword-table match and breaks; if the loop ends
with `domain_match == 0` it is set to `30`. -/
def rule_domain_match (opp : Opportunity) (profile : CapabilityProfile) : ℚ :=
  let opp_domain : List Char :=
    match opp.primary_domain with
    | some d => lowerChars d.value
    | none => []
  let domainHit : String → Bool := fun domain =>
    let domain_lower := lowerChars domain
    (charsContain opp_domain domain_lower || charsContain domain_lower opp_domain) ||
      domain_keywords.any (fun kv =>
        kv.2.any (fun kw => pyIn kw domain_lower) &&
        kv.2.any (fun kw => pyIn kw opp_domain))
  if profile.core_domains.any domainHit then 80 else 30

/-- `AIScoringEngine._rule_based_score` (`src/ai_scoring.py`
lines 238-366). -/
def rule_based_score (opp : Opportunity) (profile : CapabilityProfile) :
    OpportunityScore :=
  let domain_match := rule_domain_match opp profile
  let naics_match : ℚ :=
    if !opp.naics.isEmpty && !profile.naics.isEmpty then
      if opp.naics.any (fun n => profile.naics.contains n) then 100 else 20
    else 50
  let text := lowerChars (opp.title ++ " " ++ opp.description)
  let skill_matches : Nat :=
    (profile.technical_skills.filter (fun skill => charsContain text (lowerChars skill))).length
  let total_skills : Nat :=
    if !profile.technical_skills.isEmpty then profile.technical_skills.length else 1
  let technical_skill_match : ℚ :=
    if total_skills > 0 then min 100 ((skill_matches : ℚ) / (total_skills : ℚ) * 100)
    else 50
  let opp_agency := lowerChars opp.agency
  let agency_match : ℚ :=
    if profile.preferred_agencies.any (fun pref_agency =>
        charsContain opp_agency (lowerChars pref_agency) ||
        charsContain (lowerChars pref_agency) opp_agency)
    then 100 else 50
  let contract_type_fit : ℚ := 70
  let strategic_value : ℚ := 60
  let breakdown : FitScoreBreakdown :=
    { domain_match := domain_match
      naics_match := naics_match
      technical_skill_match := technical_skill_match
      agency_alignment := agency_match
      contract_type_fit := contract_type_fit
      strategic_value := strategic_value }
  let combined := scoreCombine_rule breakdown
  let explanation :=
    "Domain match: " ++ toString (roundHalfEven domain_match) ++
    "%, NAICS: " ++ toString (roundHalfEven naics_match) ++
    "%, Skills: " ++ toString (roundHalfEven technical_skill_match) ++ "%"
  { opportunity := opp
    capability_profile := profile
    fit_score := round2 combined.1
    breakdown := breakdown
    explanation := explanation
    risk_factors := ["Rule-based scoring used (AI unavailable)"]
    recommended_action := combined.2
    reasoning := explanation }

/-- The defensive clamp of `_ai_score` (`src/ai_scoring.py` line 225):
`max(0, min(100, float(value)))`. -/
def clampScore (value : ℚ) : ℚ := max 0 (min 100 value)

/-- The breakdown object of a parsed scoring JSON response, before the
clamp.  A breakdown whose values cannot be coerced with `float(...)`, or
with keys missing (which makes the later `FitScoreBreakdown(**...)`
constructor raise, caught by the outer fallback), is behaviourally the
same as an overall failure and is modelled as such. -/
structure RawBreakdown where
  domain_match : ℚ
  naics_match : ℚ
  technical_skill_match : ℚ
  agency_alignment : ℚ
  contract_type_fit : ℚ
  strategic_value : ℚ
  deriving DecidableEq, Repr

/-- Clamp every factor of a raw breakdown
(`src/ai_scoring.py` lines 222-226). -/
def clampBreakdown (b : RawBreakdown) : FitScoreBreakdown where
  domain_match := clampScore b.domain_match
  naics_match := clampScore b.naics_match
  technical_skill_match := clampScore b.technical_skill_match
  agency_alignment := clampScore b.agency_alignment
  contract_type_fit := clampScore b.contract_type_fit
  strategic_value := clampScore b.strategic_value

/-- A parsed scoring JSON response (`score_data` before the
default-filling of `_ai_score` lines 212-220).  `breakdown := none`
models the `"breakdown"` key being absent or bound to an empty/falsy
object; optional text fields model absent keys. -/
structure RawScoreData where
  breakdown : Option RawBreakdown := none
  explanation : Option String := none
  reasoning : Option String := none
  risk_factors : Option (List String) := none
  deriving DecidableEq, Repr

/-- `score_data` after `_ai_score`: defaults filled and breakdown
clamped. -/
structure ScoreData where
  breakdown : Option FitScoreBreakdown
  explanation : String
  reasoning : String
  risk_factors : List String
  deriving DecidableEq, Repr

/-- The pure tail of `AIScoringEngine._ai_score`
(`src/ai_scoring.py` lines 212-228): fill in defaults for missing keys and
clamp every breakdown factor to `[0,100]`. -/
def ai_score (raw : RawScoreData) : ScoreData :=
  let explanation := raw.explanation.getD "AI classification completed"
  { breakdown := raw.breakdown.map clampBreakdown
    explanation := explanation
    reasoning := raw.reasoning.getD explanation
    risk_factors := raw.risk_factors.getD [] }

/-- `AIScoringEngine.score_opportunity` (`src/ai_scoring.py` lines 50-139).
`hasClient` models `self.client` being configured; `aiOutcome` is the
parsed outcome of `_ai_score`'s generative call: `none` models a raised
failure (transport error or malformed JSON), `some raw` a successfully
parsed JSON object.  The pydantic construction fallback (lines 103-134)
builds the identical record either way and is modelled as plain
construction. -/
def score_opportunity (hasClient : Bool) (aiOutcome : Option RawScoreData)
    (opp : Opportunity) (profile : CapabilityProfile) : OpportunityScore :=
  if !hasClient then rule_based_score opp profile
  else
    match aiOutcome with
    | none => rule_based_score opp profile
    | some raw =>
      let score_data := ai_score raw
      match score_data.breakdown with
      | none => rule_based_score opp profile
      | some breakdown =>
        let combined := scoreCombine_ai breakdown
        { opportunity := opp
          capability_profile := profile
          fit_score := round2 combined.1
          breakdown := breakdown
          explanation := score_data.explanation
          risk_factors := score_data.risk_factors
          recommended_action := combined.2
          reasoning := score_data.reasoning }

/-- Recursion underlying `score_batch`'s `for i, opp in enumerate(...)`
loop: index `i` selects which generative response (`oracle i`) the `i`-th
call observes, and `max_ai_score = 20` bounds the generative-eligible
indices. -/
def score_batch_go (oracle : Nat → Option RawScoreData)
    (profile : CapabilityProfile) (i : Nat) :
    List Opportunity → List OpportunityScore
  | [] => []
  | opp :: rest =>
    (if i < 20 then score_opportunity true (oracle i) opp profile
     else rule_based_score opp profile) ::
      score_batch_go oracle profile (i + 1) rest

/-- `AIScoringEngine.score_batch` (`src/ai_scoring.py` lines 368-393). -/
def score_batch (hasClient : Bool) (oracle : Nat → Option RawScoreData)
    (opps : List Opportunity) (profile : CapabilityProfile) :
    List OpportunityScore :=
  if !hasClient then opps.map (fun opp => rule_based_score opp profile)
  else score_batch_go oracle profile 0 opps

end AIScoringEngine

/-! Concrete sample data used to instantiate the theorems below. -/

/-- A notice whose text contains the exclusion term `"janitorial"`. -/
def oppJanitorial : Opportunity :=
  { notice_id := "N1", title := "Janitorial services",
    description := "Routine custodial work", agency := "GSA", naics := [] }

/-- A notice whose text triggers the rule-based AI-domain keywords. -/
def oppML : Opportunity :=
  { notice_id := "N2", title := "machine learning", description := "",
    agency := "DoD", naics := [] }

/-- A capability profile with an empty technical-skill list. -/
def profileA : CapabilityProfile :=
  { company_name := "Acme", core_domains := ["AI/ML"], technical_skills := [],
    naics := [], preferred_agencies := [] }

/-- A parsed classification response naming a Cloud domain. -/
def rawCloud : AIClassifier.RawClassification :=
  { primary_domain := some "Cloud", complexity := some "Low" }

/-- A parsed scoring response carrying the breakdown (80,100,80,100,70,60). -/
def rawB83 : AIScoringEngine.RawScoreData :=
  { breakdown := some ⟨80, 100, 80, 100, 70, 60⟩ }

/-- The breakdown whose six factors are all the same value. -/
def constBreakdown (x : ℚ) : FitScoreBreakdown := ⟨x, x, x, x, x, x⟩

/-- The §4.4 weighting formula exactly as the spec words it:
`0.30·domain + 0.20·naics + 0.20·skill + 0.10·agency + 0.10·contract +
0.10·strategic`. -/
def specWeightedFit (b : FitScoreBreakdown) : ℚ :=
  30/100 * b.domain_match + 20/100 * b.naics_match +
  20/100 * b.technical_skill_match + 10/100 * b.agency_alignment +
  10/100 * b.contract_type_fit + 10/100 * b.strategic_value

open AIScoringEngine AIClassifier

/-- C1: For every six-factor breakdown, the fit score equals
`0.30·domain_match + 0.20·naics_match + 0.20·technical_skill_match +
0.10·agency_alignment + 0.10·contract_type_fit + 0.10·strategic_value`,
rounded to 2 decimals — stated for the combine step shared by both
scoring paths, for the stored `fit_score` of the rule-based scorer, and
for the stored `fit_score` of the generative path on a sanitized
breakdown; in particular the breakdown (80,100,80,100,70,60) yields
`fit_score = 83.00` and `recommended_action = BID`. -/
theorem C1_weighted_fit :
    (∀ b : FitScoreBreakdown, (scoreCombine_rule b).1 = specWeightedFit b) ∧
    (∀ opp profile, (rule_based_score opp profile).fit_score =
      round2 (specWeightedFit (rule_based_score opp profile).breakdown)) ∧
    (∀ opp profile braw e r rf,
      (score_opportunity true
        (some { breakdown := some braw, explanation := e, reasoning := r,
                risk_factors := rf }) opp profile).fit_score =
      round2 (specWeightedFit (clampBreakdown braw))) ∧
    (score_opportunity true (some rawB83) oppML profileA).fit_score = 83 ∧
    (score_opportunity true (some rawB83) oppML profileA).recommended_action =
      RecommendedAction.BID := by
  refine ⟨fun b => ?_, fun opp profile => ?_, fun opp profile braw e r rf => ?_, ?_, ?_⟩
  · simp only [scoreCombine_rule, specWeightedFit, WEIGHTS_domain_match,
      WEIGHTS_naics_match, WEIGHTS_technical_skill_match, WEIGHTS_agency_alignment,
      WEIGHTS_contract_type_fit, WEIGHTS_strategic_value]
    ring
  · simp only [rule_based_score, scoreCombine_rule, specWeightedFit,
      WEIGHTS_domain_match, WEIGHTS_naics_match, WEIGHTS_technical_skill_match,
      WEIGHTS_agency_alignment, WEIGHTS_contract_type_fit, WEIGHTS_strategic_value]
    congr 1
    ring
  · simp only [score_opportunity, ai_score, Option.map, scoreCombine_ai,
      specWeightedFit, WEIGHTS_domain_match, WEIGHTS_naics_match,
      WEIGHTS_technical_skill_match, WEIGHTS_agency_alignment,
      WEIGHTS_contract_type_fit, WEIGHTS_strategic_value, Bool.not_true,
      Bool.false_eq_true, if_false]
    congr 1
    ring
  · norm_num [score_opportunity, ai_score, rawB83, clampBreakdown, clampScore,
      scoreCombine_ai, WEIGHTS_domain_match, WEIGHTS_naics_match,
      WEIGHTS_technical_skill_match, WEIGHTS_agency_alignment,
      WEIGHTS_contract_type_fit, WEIGHTS_strategic_value, round2, roundHalfEven,
      Int.fract, round_eq]
  · norm_num [score_opportunity, ai_score, rawB83, clampBreakdown, clampScore,
      scoreCombine_ai, WEIGHTS_domain_match, WEIGHTS_naics_match,
      WEIGHTS_technical_skill_match, WEIGHTS_agency_alignment,
      WEIGHTS_contract_type_fit, WEIGHTS_strategic_value]

/-- C2: The action thresholds are exact: for every breakdown, the
recommended action is `BID` iff the raw weighted fit is `≥ 70`,
`TEAM/SUB` iff it is in `[50, 70)`, and `IGNORE` iff it is `< 50`; at the
boundary breakdowns with all factors equal, a fit of exactly 70.00 gives
`BID`, 69.99 gives `TEAM/SUB`, 50.00 gives `TEAM/SUB`, 49.99 gives
`IGNORE`. -/
theorem C2_thresholds :
    (∀ b : FitScoreBreakdown,
      ((scoreCombine_rule b).2 = RecommendedAction.BID ↔
        70 ≤ (scoreCombine_rule b).1) ∧
      ((scoreCombine_rule b).2 = RecommendedAction.TEAM_SUB ↔
        (50 ≤ (scoreCombine_rule b).1 ∧ (scoreCombine_rule b).1 < 70)) ∧
      ((scoreCombine_rule b).2 = RecommendedAction.IGNORE ↔
        (scoreCombine_rule b).1 < 50)) ∧
    ((scoreCombine_rule (constBreakdown 70)).1 = 70 ∧
      (scoreCombine_rule (constBreakdown 70)).2 = RecommendedAction.BID) ∧
    ((scoreCombine_rule (constBreakdown (6999/100))).1 = 6999/100 ∧
      (scoreCombine_rule (constBreakdown (6999/100))).2 = RecommendedAction.TEAM_SUB) ∧
    ((scoreCombine_rule (constBreakdown 50)).1 = 50 ∧
      (scoreCombine_rule (constBreakdown 50)).2 = RecommendedAction.TEAM_SUB) ∧
    ((scoreCombine_rule (constBreakdown (4999/100))).1 = 4999/100 ∧
      (scoreCombine_rule (constBreakdown (4999/100))).2 = RecommendedAction.IGNORE) := by
  constructor
  · intro b
    simp only [scoreCombine_rule]
    split_ifs with h1 h2 <;> refine ⟨?_, ?_, ?_⟩ <;> simp_all
    linarith
  · refine ⟨⟨?_, ?_⟩, ⟨?_, ?_⟩, ⟨?_, ?_⟩, ⟨?_, ?_⟩⟩ <;>
      norm_num [scoreCombine_rule, constBreakdown, WEIGHTS_domain_match,
        WEIGHTS_naics_match, WEIGHTS_technical_skill_match,
        WEIGHTS_agency_alignment, WEIGHTS_contract_type_fit,
        WEIGHTS_strategic_value]

/-- C3: Given the same six-factor breakdown, the generative-backed scorer
and the rule-based scorer combine the factors identically: the two
transcriptions of the weighting-and-threshold step are equal as
functions, and the generative path's stored `fit_score` and
`recommended_action` on a sanitized breakdown are exactly what the
rule-based combine step produces on that breakdown. -/
theorem C3_combine_refinement :
    (∀ b : FitScoreBreakdown, scoreCombine_ai b = scoreCombine_rule b) ∧
    (∀ opp profile braw e r rf,
      (score_opportunity true
        (some { breakdown := some braw, explanation := e, reasoning := r,
                risk_factors := rf }) opp profile).fit_score =
        round2 (scoreCombine_rule (clampBreakdown braw)).1 ∧
      (score_opportunity true
        (some { breakdown := some braw, explanation := e, reasoning := r,
                risk_factors := rf }) opp profile).recommended_action =
        (scoreCombine_rule (clampBreakdown braw)).2) :=
  ⟨fun _ => rfl, fun _ _ _ _ _ _ => ⟨rfl, rfl⟩⟩

/-- C4: For every notice whose lowercased title+description contains any
term of the fixed exclusion list, rule-based classification sets
`primary_domain = Other` and `complexity = Low` and stops, leaving every
other field of the notice untouched. -/
theorem C4_exclusion_shortcut :
    ∀ opp : Opportunity,
      (non_it_terms.any (fun term =>
        pyIn term (lowerChars (opp.title ++ " " ++ opp.description)))) = true →
      rule_based_classify opp =
        { opp with primary_domain := some OpportunityDomain.OTHER,
                   complexity := some Complexity.LOW } := by
  intro opp h
  simp [rule_based_classify, h]

/-- Witness for C4: the sample janitorial notice contains an exclusion
term and is classified `Other`/`Low`. -/
theorem C4_exclusion_shortcut_witness :
    (non_it_terms.any (fun term =>
      pyIn term (lowerChars (oppJanitorial.title ++ " " ++ oppJanitorial.description)))) = true ∧
    rule_based_classify oppJanitorial =
      { oppJanitorial with primary_domain := some OpportunityDomain.OTHER,
                           complexity := some Complexity.LOW } :=
  ⟨by decide, C4_exclusion_shortcut oppJanitorial (by decide)⟩

/-- C5 counterexample: a generative response that parses but has every
field missing (the JSON object `{}`) is not treated as a failure — the
classifier keeps the per-field normalization defaults instead of falling
back, so the result differs from the pure rule-based pass on the same
notice. -/
theorem C5_counterexample :
    (classify_opportunity true (some ({} : RawClassification)) oppML).primary_domain
        = none ∧
    (rule_based_classify oppML).primary_domain = some OpportunityDomain.AI ∧
    classify_opportunity true (some ({} : RawClassification)) oppML ≠
      rule_based_classify oppML := by
  refine ⟨by decide, by decide, by decide⟩

/-- C5 (amended): a failure that raises out of the generative path —
malformed JSON or a transport error — causes a full fallback to the
rule-based classifier, identical to a pure rule-based pass and never a
partial merge; but a well-formed response with missing fields is not a
failure: every field is filled from normalization of the (possibly
absent) raw value, with no fallback. -/
theorem C5_full_fallback :
    (∀ opp, classify_opportunity true none opp = rule_based_classify opp) ∧
    (∀ opp aiOutcome, classify_opportunity false aiOutcome opp = rule_based_classify opp) ∧
    (∀ opp raw, classify_opportunity true (some raw) opp =
      { opp with
          primary_domain := normalize_domain raw.primary_domain,
          secondary_domains :=
            raw.secondary_domains.map (fun d => normalize_domain (some d)),
          complexity := normalize_complexity raw.complexity,
          project_type := normalize_project_type raw.project_type,
          is_legacy := some raw.is_legacy }) :=
  ⟨fun _ => rfl, fun _ _ => rfl, fun _ _ => rfl⟩

/-- C6 counterexample: in a classification batch of 21 items with a
generative client configured, the item at index 20 still takes the
generative path — `classify_batch` has no index ceiling — so its result
differs from the rule-based result the claim demands there. -/
theorem C6_counterexample :
    (classify_batch true (fun _ => some rawCloud) (List.replicate 21 oppML)).get? 20 =
        some (classify_opportunity true (some rawCloud) oppML) ∧
    (classify_opportunity true (some rawCloud) oppML).primary_domain =
        some OpportunityDomain.CLOUD ∧
    (rule_based_classify oppML).primary_domain = some OpportunityDomain.AI ∧
    (classify_batch true (fun _ => some rawCloud) (List.replicate 21 oppML)).get? 20 ≠
      some (rule_based_classify oppML) := by
  refine ⟨by decide, by decide, by decide, by decide⟩

/-- `score_batch_go` indexing: element `i` of the tail starting at index
`k` is scored as item `k + i`. -/
lemma score_batch_go_get (oracle : Nat → Option RawScoreData)
    (profile : CapabilityProfile) :
    ∀ (opps : List Opportunity) (k i : Nat),
      (score_batch_go oracle profile k opps).get? i =
        (opps.get? i).map (fun opp =>
          if k + i < 20 then score_opportunity true (oracle (k + i)) opp profile
          else rule_based_score opp profile) := by
  intro opps
  induction opps with
  | nil => intro k i; simp [score_batch_go]
  | cons o rest ih =>
    intro k i
    cases i with
    | zero => simp [score_batch_go]
    | succ j =>
      have h := ih (k + 1) j
      rw [show k + 1 + j = k + (j + 1) from by omega] at h
      simpa [score_batch_go] using h

/-- `score_batch_go` preserves length. -/
lemma score_batch_go_length (oracle : Nat → Option RawScoreData)
    (profile : CapabilityProfile) :
    ∀ (opps : List Opportunity) (k : Nat),
      (score_batch_go oracle profile k opps).length = opps.length := by
  intro opps
  induction opps with
  | nil => intro k; rfl
  | cons o rest ih => intro k; simp [score_batch_go, ih]

/-- `classify_batch_go` indexing: element `i` of the tail starting at
index `k` observes generative response `k + i`. -/
lemma classify_batch_go_get (hasClient : Bool)
    (oracle : Nat → Option RawClassification) :
    ∀ (opps : List Opportunity) (k i : Nat),
      (classify_batch_go hasClient oracle k opps).get? i =
        (opps.get? i).map (classify_opportunity hasClient (oracle (k + i))) := by
  intro opps
  induction opps with
  | nil => intro k i; simp [classify_batch_go]
  | cons o rest ih =>
    intro k i
    cases i with
    | zero => simp [classify_batch_go]
    | succ j =>
      have h := ih (k + 1) j
      rw [show k + 1 + j = k + (j + 1) from by omega] at h
      simpa [classify_batch_go] using h

/-- `classify_batch_go` preserves length. -/
lemma classify_batch_go_length (hasClient : Bool)
    (oracle : Nat → Option RawClassification) :
    ∀ (opps : List Opportunity) (k : Nat),
      (classify_batch_go hasClient oracle k opps).length = opps.length := by
  intro opps
  induction opps with
  | nil => intro k; rfl
  | cons o rest ih => intro k; simp [classify_batch_go, ih]

/-- C6 (amended): in a scoring batch with a generative client configured,
items at index `< 20` are attempted via the generative path (with
fallback on error inside `score_opportunity`) and items at index `≥ 20`
unconditionally use the rule-based path, with input length and ordering
preserved; classification batches, by contrast, apply the
generative-eligible path to every item, with no index ceiling, also
preserving length and ordering. -/
theorem C6_batch_ceiling :
    (∀ oracle opps profile,
      (score_batch true oracle opps profile).length = opps.length) ∧
    (∀ oracle opps profile (i : Nat),
      (score_batch true oracle opps profile).get? i =
        (opps.get? i).map (fun opp =>
          if i < 20 then score_opportunity true (oracle i) opp profile
          else rule_based_score opp profile)) ∧
    (∀ hasClient oracle opps,
      (classify_batch hasClient oracle opps).length = opps.length) ∧
    (∀ hasClient oracle opps (i : Nat),
      (classify_batch hasClient oracle opps).get? i =
        (opps.get? i).map (classify_opportunity hasClient (oracle i))) := by
  refine ⟨fun oracle opps profile => ?_, fun oracle opps profile i => ?_,
         fun hasClient oracle opps => ?_, fun hasClient oracle opps i => ?_⟩
  · simpa [score_batch] using score_batch_go_length oracle profile opps 0
  · simpa [score_batch] using score_batch_go_get oracle profile opps 0 i
  · simpa [classify_batch] using classify_batch_go_length hasClient oracle opps 0
  · simpa [classify_batch] using classify_batch_go_get hasClient oracle opps 0 i

/-- The property that every factor of a breakdown lies within `[0,100]`
inclusive. -/
def breakdownInRange (b : FitScoreBreakdown) : Prop :=
  (0 ≤ b.domain_match ∧ b.domain_match ≤ 100) ∧
  (0 ≤ b.naics_match ∧ b.naics_match ≤ 100) ∧
  (0 ≤ b.technical_skill_match ∧ b.technical_skill_match ≤ 100) ∧
  (0 ≤ b.agency_alignment ∧ b.agency_alignment ≤ 100) ∧
  (0 ≤ b.contract_type_fit ∧ b.contract_type_fit ≤ 100) ∧
  (0 ≤ b.strategic_value ∧ b.strategic_value ≤ 100)

/-- Bounds of the defensive clamp. -/
lemma clampScore_range (v : ℚ) : 0 ≤ clampScore v ∧ clampScore v ≤ 100 :=
  ⟨le_max_left 0 _, max_le (by norm_num) (min_le_left _ _)⟩

/-- C7: every breakdown factor of a scored opportunity lies within
`[0,100]` inclusive: the generative path clamps each returned factor
(`-5` to `0`, `150` to `100`) before the weighting formula sees it, and
the rule-based path only produces in-range factors. -/
theorem C7_factors_clamped :
    (∀ v : ℚ, 0 ≤ clampScore v ∧ clampScore v ≤ 100) ∧
    clampScore (-5) = 0 ∧ clampScore 150 = 100 ∧
    (∀ braw : RawBreakdown, breakdownInRange (clampBreakdown braw)) ∧
    (∀ opp profile braw e r rf,
      (score_opportunity true
        (some { breakdown := some braw, explanation := e, reasoning := r,
                risk_factors := rf }) opp profile).breakdown =
        clampBreakdown braw) ∧
    (∀ opp profile, breakdownInRange (rule_based_score opp profile).breakdown) := by
  refine ⟨clampScore_range, by norm_num [clampScore], by norm_num [clampScore],
    fun braw => ?_, fun _ _ _ _ _ _ => rfl, fun opp profile => ?_⟩
  · exact ⟨clampScore_range _, clampScore_range _, clampScore_range _,
      clampScore_range _, clampScore_range _, clampScore_range _⟩
  · simp only [rule_based_score, breakdownInRange, rule_domain_match]
    refine ⟨?_, ?_, ?_, ?_, by norm_num, by norm_num⟩
    · split_ifs <;> norm_num
    · split_ifs <;> norm_num
    · split_ifs <;>
        first
          | exact ⟨le_min (by norm_num) (by positivity), min_le_left _ _⟩
          | norm_num
    · split_ifs <;> norm_num

/-- C8 counterexample: for a capability profile whose technical-skill
list is empty, the rule-based scorer's `technical_skill_match` factor is
`0`, not the neutral `50` the claim asserts (the `else 50` branch is
unreachable because `total_skills` is coerced to `1`). -/
theorem C8_counterexample :
    profileA.technical_skills = [] ∧
    (rule_based_score oppJanitorial profileA).breakdown.technical_skill_match = 0 ∧
    (rule_based_score oppJanitorial profileA).breakdown.technical_skill_match ≠ 50 := by
  refine ⟨rfl, ?_, ?_⟩ <;> norm_num [rule_based_score, profileA]

/-- C8 (amended): for every capability profile whose technical-skill list
is empty, the rule-based scorer handles the sparse input without raising
(it is a total function) but assigns `technical_skill_match = 0`: the
guard `len(...) if ... else 1` coerces `total_skills` to `1`, so the
neutral-50 default branch is dead and the match ratio evaluates to 0. -/
theorem C8_empty_skills_zero :
    ∀ opp profile, profile.technical_skills = [] →
      (rule_based_score opp profile).breakdown.technical_skill_match = 0 := by
  intro opp profile h
  norm_num [rule_based_score, h]

/-- Witness for C8 (amended) at a concrete sparse profile. -/
theorem C8_empty_skills_zero_witness :
    profileA.technical_skills = [] ∧
    (rule_based_score oppML profileA).breakdown.technical_skill_match = 0 :=
  ⟨rfl, C8_empty_skills_zero oppML profileA rfl⟩

/-- C9 counterexample: the empty category string matches no alias of the
ranked table, yet normalization returns `None` rather than `Other` — the
falsy-input guard short-circuits before the table is consulted, so the
result is not always a member of the domain enum. -/
theorem C9_counterexample :
    (domain_mapping.all (fun kv => !(pyIn kv.1 (upperChars "")))) = true ∧
    normalize_domain (some "") = none ∧
    normalize_domain (some "") ≠ some OpportunityDomain.OTHER := by
  refine ⟨by decide, by decide, by decide⟩

/-- C9 (amended): for every non-empty input category string, domain
normalization performs a case-insensitive substring match against the
ranked alias table, the first matching alias wins, no alias matching
yields `Other`, and the result is always some member of the domain enum;
an empty or absent input, however, returns `None` before the table is
consulted. -/
theorem C9_normalize_first_match :
    (∀ s : String, s ≠ "" →
      (∀ p, domain_mapping.find? (fun kv => pyIn kv.1 (upperChars s)) = some p →
        normalize_domain (some s) = some p.2) ∧
      (domain_mapping.find? (fun kv => pyIn kv.1 (upperChars s)) = none →
        normalize_domain (some s) = some OpportunityDomain.OTHER) ∧
      (normalize_domain (some s)).isSome = true) ∧
    normalize_domain none = none ∧
    normalize_domain (some "") = none := by
  refine ⟨fun s hs => ⟨fun p h => ?_, fun h => ?_, ?_⟩, rfl, rfl⟩
  · simp [normalize_domain, hs, h]
  · simp [normalize_domain, hs, h]
  · rcases hfind : domain_mapping.find? (fun kv => pyIn kv.1 (upperChars s)) with _ | p <;>
      simp [normalize_domain, hs, hfind]

/-- Witness for C9 (amended): a category matching the `"CLOUD"` alias
normalizes to `Cloud`, and a category matching no alias normalizes to
`Other`. -/
theorem C9_normalize_first_match_witness :
    ("Cloud Migration" ≠ "") ∧
    domain_mapping.find? (fun kv => pyIn kv.1 (upperChars "Cloud Migration")) =
      some ("CLOUD", OpportunityDomain.CLOUD) ∧
    normalize_domain (some "Cloud Migration") = some OpportunityDomain.CLOUD ∧
    domain_mapping.find? (fun kv => pyIn kv.1 (upperChars "Quantum Research Vessel")) = none ∧
    normalize_domain (some "Quantum Research Vessel") = some OpportunityDomain.OTHER :=
  ⟨by decide, by decide,
   (C9_normalize_first_match.1 "Cloud Migration" (by decide)).1
     ("CLOUD", OpportunityDomain.CLOUD) (by decide),
   by decide,
   (C9_normalize_first_match.1 "Quantum Research Vessel" (by decide)).2.1 (by decide)⟩

/-- The empty needle occurs in every haystack (Python: `"" in s` is
always `True`). -/
lemma charsContain_nil (hay : List Char) : charsContain hay [] = true := by
  cases hay <;> simp [charsContain, charsStartWith]

/-- C10: for every notice whose `primary_domain` is unset and every
profile with a non-empty core-domain list, the rule-based scorer assigns
`domain_match = 80`: the empty lowered domain string is trivially a
substring of the first core-domain label, so the direct-match branch
fires instead of the 30-point partial-credit default. -/
theorem C10_unset_domain_match :
    ∀ opp profile, opp.primary_domain = none → profile.core_domains ≠ [] →
      (rule_based_score opp profile).breakdown.domain_match = 80 := by
  intro opp profile hdom hcore
  obtain ⟨d, rest, hd⟩ : ∃ d rest, profile.core_domains = d :: rest := by
    rcases hlist : profile.core_domains with _ | ⟨d, rest⟩
    · exact absurd hlist hcore
    · exact ⟨d, rest, rfl⟩
  simp [rule_based_score, rule_domain_match, hdom, hd, charsContain_nil]

/-- Witness for C10 at a concrete unset-domain notice and a profile with
one core domain. -/
theorem C10_unset_domain_match_witness :
    oppML.primary_domain = none ∧ profileA.core_domains ≠ [] ∧
    (rule_based_score oppML profileA).breakdown.domain_match = 80 :=
  ⟨rfl, by decide, C10_unset_domain_match oppML profileA rfl (by decide)⟩

end SamGov
